import Mathlib

/-!
# Verification of the XLOS Pro window & desktop manager

This file is a shallow embedding of the Window/Desktop-manager core of
`src/XLOS_Pro.py` (a single-file pygame desktop simulator), together with
proofs settling the frozen claims about it.

Modelling conventions:
* `pygame.Rect` is a record of four integers; `collidepoint` is inclusive on
  the top/left edge and exclusive on the right/bottom edge, as in pygame.
* The screen size is the configured `W × H = 1280 × 720` (the source reads
  `screen.get_size()`; surface resize events are out of the claims' scope).
* Raw events are a tagged union mirroring the pygame events the manager
  inspects.  `pygame.mouse.get_pos()` is passed as an explicit `mouse`
  argument; `time.time()` (used for icon double-clicks) is an explicit
  rational `now` argument.
* A hosted App is modelled by its observation log: the list of
  `(event, content rect)` pairs that `Window.handle_event` forwarded to
  `app.handle_event`.  Apps are leaf consumers and none of the claims
  depend on their internal behaviour.
* A Python function that can raise (`KeyError` from `APP_MAP[app_name]`,
  `sys.exit()` from shutdown, `ValueError` from `list.remove`) is modelled
  as returning `Option`; `none` means the process aborted there.
* Geometry attributes that the source stores during `draw` (`_btns`,
  `task_buttons`, `menu_items`, `start_btn`, `power_rect`, the repositioned
  `menu_rect`) are either constants (their drawn values are fixed by the
  configuration) or state fields refreshed by `draw_sync`, which mirrors
  the per-frame draw pass of the main loop.
-/

namespace XLOS

/-- A point on the screen, `(x, y)` in pixels (pygame event positions). -/
abbrev Pos := Int × Int

/-- `pygame.Rect`: x, y, width, height (all integers in this program). -/
structure Rect where
  x : Int
  y : Int
  w : Int
  h : Int
deriving DecidableEq

/-- `Rect.collidepoint`: inside test, inclusive top/left, exclusive
right/bottom, exactly as pygame defines it. -/
def Rect.collidepoint (r : Rect) (p : Pos) : Bool :=
  decide (r.x ≤ p.1) && decide (p.1 < r.x + r.w) &&
  decide (r.y ≤ p.2) && decide (p.2 < r.y + r.h)

/-! ## Configuration constants (source lines 45–54) -/

/-- Screen width `W = 1280`. -/
def W : Int := 1280
/-- Screen height `H = 720`. -/
def H : Int := 720
/-- `TITLEBAR_H = 32`. -/
def TITLEBAR_H : Int := 32
/-- `TASKBAR_H = 44`. -/
def TASKBAR_H : Int := 44
/-- `RESIZE_GRIP = 12`. -/
def RESIZE_GRIP : Int := 12
/-- `MIN_W = 220`. -/
def MIN_W : Int := 220
/-- `MIN_H = 140`. -/
def MIN_H : Int := 140
/-- `ICON_SIZE = 64`. -/
def ICON_SIZE : Int := 64
/-- `pygame.K_ESCAPE`. -/
def K_ESCAPE : Int := 27
/-- `pygame.K_TAB`. -/
def K_TAB : Int := 9

/-! ## Raw events (the tagged union the manager inspects) -/

/-- Raw pygame events as seen by the Window/Desktop core.  `keyDown`
carries whether ALT is held (`pygame.key.get_mods() & KMOD_ALT`), the only
modifier the core reads. -/
inductive PEvent where
  | mouseDown (button : Int) (pos : Pos)
  | mouseUp (button : Int) (pos : Pos)
  | mouseMotion (pos : Pos)
  | keyDown (key : Int) (alt : Bool)
  | keyUp (key : Int)
deriving DecidableEq

/-- Sleep-mode wake test: `e.type in (MOUSEBUTTONDOWN, KEYDOWN)`
(source line 967). -/
def PEvent.isWake : PEvent → Bool
  | .mouseDown _ _ => true
  | .keyDown _ _ => true
  | _ => false

/-! ## Window (source lines 135–226) -/

/-- The three title-bar buttons, drawn with labels `x`, `□`, `–`. -/
inductive TButton where
  | tclose
  | tmax
  | tmin
deriving DecidableEq

/-- One managed window.  `appLog` is the observation log of the hosted App:
every `(event, content_rect)` pair passed to `app.handle_event` is appended
to it.  `btns` models `_btns`, the title-button hit rectangles stored by
`draw` (empty until the first draw; the source would raise
`AttributeError` on a title-bar hit test before the first draw, a state no
claim exercises). -/
structure Window where
  appName : String
  appLog : List (PEvent × Rect)
  rect : Rect
  minimized : Bool
  maximized : Bool
  dragging : Bool
  resizing : Bool
  drag_offset : Int × Int
  pre_max_rect : Rect
  btns : List (TButton × Rect)
  z : Nat
deriving DecidableEq

/-- `Window.__init__` (lines 137–147): fresh App instance (empty log),
idle interaction state, `_pre_max_rect` initialised to a copy of the
frame, identity `z = Window._seq`. -/
def Window.new (appName : String) (r : Rect) (z : Nat) : Window :=
  { appName := appName, appLog := [], rect := r, minimized := false,
    maximized := false, dragging := false, resizing := false,
    drag_offset := (0, 0), pre_max_rect := r, btns := [], z := z }

/-- `titlebar_rect` (line 149). -/
def Window.titlebar_rect (w : Window) : Rect :=
  ⟨w.rect.x, w.rect.y, w.rect.w, TITLEBAR_H⟩

/-- `content_rect` (line 152): the frame minus the title-bar band. -/
def Window.content_rect (w : Window) : Rect :=
  ⟨w.rect.x, w.rect.y + TITLEBAR_H, w.rect.w, w.rect.h - TITLEBAR_H⟩

/-- `grip_rect` (line 155): the bottom-right resize grip. -/
def Window.grip_rect (w : Window) : Rect :=
  ⟨w.rect.x + w.rect.w - RESIZE_GRIP, w.rect.y + w.rect.h - RESIZE_GRIP,
   RESIZE_GRIP, RESIZE_GRIP⟩

/-- The title-button rectangles laid out by `draw` (lines 206–213):
starting at `titlebar.right - 28`, stepping left by 26, labels
`x`, `□`, `–`, each 22×18 at `titlebar.y + 6`. -/
def btnRects (r : Rect) : List (TButton × Rect) :=
  [(.tclose, ⟨r.x + r.w - 28, r.y + 6, 22, 18⟩),
   (.tmax, ⟨r.x + r.w - 54, r.y + 6, 22, 18⟩),
   (.tmin, ⟨r.x + r.w - 80, r.y + 6, 22, 18⟩)]

/-- `_hit_title_buttons` (lines 222–226): first stored button rectangle
containing the point, if any. -/
def Window.hit_title_buttons (w : Window) (p : Pos) : Option TButton :=
  (w.btns.find? (fun br => br.2.collidepoint p)).map (fun br => br.1)

/-- The per-frame effect of `Window.draw` on stored hit-test state
(lines 192–213): a no-op when minimized, otherwise `_btns` is refreshed
from the current frame. -/
def Window.draw_sync (w : Window) : Window :=
  if w.minimized then w else { w with btns := btnRects w.rect }

/-- The chrome/drag/resize part of `Window.handle_event`
(lines 160–187).  `none` models the early `return btn` taken when a left
mouse-down hits a title-bar button (line 165) — in that case the event is
NOT forwarded to the App. -/
def Window.hEventCore (w : Window) (e : PEvent) : Option Window :=
  match e with
  | .mouseDown b pos =>
      if b = 1 then
        if w.titlebar_rect.collidepoint pos then
          match w.hit_title_buttons pos with
          | some _ => none
          | none =>
              some { w with dragging := true,
                            drag_offset := (pos.1 - w.rect.x, pos.2 - w.rect.y) }
        else if w.grip_rect.collidepoint pos then
          some { w with resizing := true }
        else some w
      else some w
  | .mouseUp b _ =>
      if b = 1 then some { w with dragging := false, resizing := false }
      else some w
  | .mouseMotion pos =>
      let w1 :=
        if w.dragging then
          let nx := max (-w.rect.w + 60) (min (pos.1 - w.drag_offset.1) (W - 60))
          let ny := max 0 (min (pos.2 - w.drag_offset.2) (H - TASKBAR_H - TITLEBAR_H))
          { w with rect := { w.rect with x := nx, y := ny } }
        else w
      let w2 :=
        if w1.resizing then
          let nw := min (max MIN_W (pos.1 - w1.rect.x)) (W - w1.rect.x - 10)
          let nh := min (max MIN_H (pos.2 - w1.rect.y)) (H - TASKBAR_H - w1.rect.y - 10)
          { w1 with rect := { w1.rect with w := nw, h := nh } }
        else w1
      some w2
  | _ => some w

/-- `Window.handle_event` (lines 158–190): a no-op when minimized;
otherwise chrome/drag/resize bookkeeping, then (unless a title button
consumed the event via the early return) the event is forwarded to the
hosted App with the current content rect (`self.app.handle_event(e,
self.content_rect())`, line 190), recorded here by appending to the
observation log. -/
def Window.handle_event (w : Window) (e : PEvent) : Window :=
  if w.minimized then w
  else
    match w.hEventCore e with
    | none => w
    | some w2 => { w2 with appLog := w2.appLog ++ [(e, w2.content_rect)] }

/-- The maximize-toggle block of `Desktop.handle_event` (lines 1016–1022)
as a transformation of the clicked window: snapshot the frame and fill the
usable desktop area, or restore the snapshot. -/
def Window.toggle_maximize (w : Window) : Window :=
  if ¬w.maximized then
    { w with pre_max_rect := w.rect,
             rect := ⟨8, 8, W - 16, H - TASKBAR_H - 16⟩,
             maximized := true }
  else
    { w with rect := w.pre_max_rect, maximized := false }

/-! ## List helper mirroring Python `list.remove` -/

/-- Python `list.remove`-style removal: drop the first element satisfying
the predicate, keep everything else (no-op when nothing matches). -/
def removeFirst {α : Type} (p : α → Bool) : List α → List α
  | [] => []
  | a :: t => if p a then t else a :: removeFirst p t

/-! ## Desktop (source lines 849–1058) -/

/-- One desktop icon record (`{"name", "rect"}` plus the transient
`last_click`, `dragging`, `off` keys the source adds on demand).
`last_click = 0` models the absent/falsy key. -/
structure Icon where
  name : String
  rect : Rect
  last_click : ℚ
  dragging : Bool
  off : Int × Int
deriving DecidableEq

/-- The fixed app registry `APP_MAP` (lines 835–846), as the ordered list
of its keys.  Every registered constructor builds a fresh app instance
whose `name` equals its registry key. -/
def APP_MAP : List String :=
  ["Notes", "Sketch", "Settings", "Calculator", "Snake", "TicTacToe",
   "Finder", "XL DRIFT", "ChatApp"]

/-- The desktop singleton.  `seq` models the class counter `Window._seq`;
`task_buttons` models the `(rect, window)` list the taskbar draw pass
stores (windows referenced by their identity `z`). -/
structure Desktop where
  icons : List Icon
  windows : List Window
  seq : Nat
  start_open : Bool
  power_open : Bool
  sleeping : Bool
  task_buttons : List (Rect × Nat)
deriving DecidableEq

/-- Drawn-state geometry: the taskbar start button
`Rect(8, h - TASKBAR_H + 6, 120, TASKBAR_H - 12)` (line 911). -/
def STARTBTN : Rect := ⟨8, H - TASKBAR_H + 6, 120, TASKBAR_H - 12⟩

/-- Drawn-state geometry: the start-menu rectangle after `draw_start_menu`
pins its bottom-left to `(10, h - TASKBAR_H - 6)` (line 927). -/
def MENU_RECT : Rect := ⟨10, H - TASKBAR_H - 6 - 340, 260, 340⟩

/-- Drawn-state geometry: the start-menu item rows (lines 930–935), one
per registry entry, from `menu_rect.y + 58` stepping 44. -/
def MENU_ITEMS : List (Rect × String) :=
  APP_MAP.enum.map (fun inm =>
    (⟨MENU_RECT.x + 12, MENU_RECT.y + 58 + 44 * (inm.1 : Int),
      MENU_RECT.w - 24, 36⟩, inm.2))

/-- Drawn-state geometry: the start-menu power button (line 937). -/
def POWER_BTN : Rect :=
  ⟨MENU_RECT.x + 12, MENU_RECT.y + 340 - 64, MENU_RECT.w - 24, 44⟩

/-- Drawn-state geometry: the power dialog, a 420×180 box centred at
`(W//2, H//2)` (line 943). -/
def POWER_RECT : Rect := ⟨(W - 420) / 2, (H - 180) / 2, 420, 180⟩

/-- The four power-dialog action rectangles (lines 1031–1034), indexed in
source order: 0 = Shutdown, 1 = Restart, 2 = Sleep, 3 = Cancel. -/
def powerActionRect (i : Nat) : Rect :=
  ⟨POWER_RECT.x + 24 + 104 * (i : Int), POWER_RECT.y + 64, 92, 40⟩

/-- The power-dialog action list, mirroring the literal `labels` list the
source enumerates (line 1032): rectangle and command index. -/
def POWER_ACTIONS : List (Rect × Nat) :=
  [(powerActionRect 0, 0), (powerActionRect 1, 1),
   (powerActionRect 2, 2), (powerActionRect 3, 3)]

/-- `Desktop.focus` (lines 878–880): if the list is nonempty and the
window is not already on top, `remove` it and re-append it at the tail.
`none` models the `ValueError` Python raises when the window is not in the
list (while the list is nonempty). -/
def Desktop.focus (d : Desktop) (z : Nat) : Option Desktop :=
  match d.windows.getLast? with
  | none => some d
  | some lastw =>
      if lastw.z = z then some d
      else
        match d.windows.find? (fun w => w.z == z) with
        | none => none
        | some w =>
            some { d with windows := removeFirst (fun w => w.z == z) d.windows ++ [w] }

/-- Total wrapper around `Desktop.focus` used at internal call sites,
all of which pass a window that is in the list (so the `ValueError`
branch is unreachable there). -/
def Desktop.focusMem (d : Desktop) (z : Nat) : Desktop :=
  (d.focus z).getD d

/-- `Desktop.close` (lines 882–883): remove the window if present,
otherwise do nothing. -/
def Desktop.close (d : Desktop) (z : Nat) : Desktop :=
  if d.windows.any (fun w => w.z == z) then
    { d with windows := removeFirst (fun w => w.z == z) d.windows }
  else d

/-- Replace the window with identity `z` in the z-order by `f` of it
(Python mutates the shared object in place). -/
def Desktop.updateWin (d : Desktop) (z : Nat) (f : Window → Window) : Desktop :=
  { d with windows := d.windows.map (fun w => if w.z = z then f w else w) }

/-- `Desktop.spawn_window` (lines 867–876): cascading default position
from the current window count, size bounded below by `MIN_W × MIN_H`,
App constructed from the registry (`APP_MAP[app_name]()` — `none` models
the `KeyError` raised for an unknown name), new `Window` appended and
focused (a no-op, since it was just appended at the tail). -/
def Desktop.spawn_window (d : Desktop) (app_name : String) (size : Int × Int) :
    Option Desktop :=
  let x : Int := 180 + (d.windows.length : Int) * 16
  let y : Int := 120 + (d.windows.length : Int) * 12
  let r : Rect := ⟨x, y, max MIN_W size.1, max MIN_H size.2⟩
  if APP_MAP.contains app_name then
    let wnew := Window.new app_name r d.seq
    some (({ d with windows := d.windows ++ [wnew], seq := d.seq + 1 }).focusMem wnew.z)
  else none

/-- Outcome of one stage of `Desktop.handle_event`: either the method
returned (with `none` meaning the process exited/raised), or control fell
through to the next stage with the updated state. -/
inductive Step where
  | ret (r : Option Desktop)
  | cont (d : Desktop)
deriving DecidableEq

/-- The desktop-icon scan inside the mouse-down block (lines 985–994):
first icon containing the pointer wins; a second click within 0.35 s is a
double-click that opens the icon's app (and resets `last_click`),
otherwise the click records `last_click` and begins an icon drag.
Returns the updated icon list and the app name to spawn, or `none` when
no icon contains the pointer. -/
def iconsScan (mouse : Pos) (now : ℚ) :
    List Icon → Option (List Icon × Option String)
  | [] => none
  | ico :: rest =>
      if ico.rect.collidepoint mouse then
        if ico.last_click ≠ 0 ∧ now - ico.last_click < 0.35 then
          some ({ ico with last_click := 0 } :: rest, some ico.name)
        else
          some ({ ico with last_click := now, dragging := true,
                           off := (mouse.1 - ico.rect.x, mouse.2 - ico.rect.y) } :: rest,
                none)
      else
        (iconsScan mouse now rest).map (fun ls => (ico :: ls.1, ls.2))

/-- Windows stage of the mouse-down block (lines 1006–1026): scan windows
top-down for a non-minimized frame hit; a title-button hit closes,
minimizes or maximize-toggles and returns; otherwise the window is
focused and control breaks out (falling through to later stages). -/
def windowsStep (d : Desktop) (mouse : Pos) : Step :=
  match d.windows.reverse.find?
      (fun w => !w.minimized && w.rect.collidepoint mouse) with
  | none => .cont d
  | some win =>
      if win.titlebar_rect.collidepoint mouse then
        match win.hit_title_buttons mouse with
        | some .tclose => .ret (some (d.close win.z))
        | some .tmin =>
            .ret (some (d.updateWin win.z (fun w => { w with minimized := true })))
        | some .tmax =>
            .ret (some ((d.updateWin win.z Window.toggle_maximize).focusMem win.z))
        | none => .cont (d.focusMem win.z)
      else .cont (d.focusMem win.z)

/-- Taskbar stage of the mouse-down block (lines 996–1004): first stored
taskbar button containing the pointer; un-minimize-and-focus, minimize the
topmost, or focus.  A stale button whose window has been closed is
modelled as a plain return (Python would mutate the dead object or raise
from `focus`; no drawn state reaches this). -/
def taskbarStep (d : Desktop) (mouse : Pos) : Step :=
  match d.task_buttons.find? (fun bz => bz.1.collidepoint mouse) with
  | none => windowsStep d mouse
  | some bz =>
      match d.windows.find? (fun w => w.z == bz.2) with
      | none => .ret (some d)
      | some win =>
          if win.minimized then
            .ret (some ((d.updateWin bz.2
              (fun w => { w with minimized := false })).focusMem bz.2))
          else
            match d.windows.getLast? with
            | some topw =>
                if topw.z == win.z then
                  .ret (some (d.updateWin bz.2 (fun w => { w with minimized := true })))
                else .ret (some (d.focusMem bz.2))
            | none => .ret (some (d.focusMem bz.2))

/-- Icon stage of the mouse-down block (lines 985–994).  The source
spawns the double-clicked app before resetting the icon's `last_click`;
the two effects touch disjoint state, so they are applied here in one
step. -/
def iconsStep (d : Desktop) (mouse : Pos) (now : ℚ) : Step :=
  match iconsScan mouse now d.icons with
  | some (icons1, some name) =>
      .ret (({ d with icons := icons1 }).spawn_window name (520, 360))
  | some (icons1, none) => .ret (some { d with icons := icons1 })
  | none => taskbarStep d mouse

/-- Start-menu stage of the mouse-down block (lines 976–983): menu-item
click spawns and closes the menu; power-button click opens the power
dialog and closes the menu; a click outside both the menu and the start
button closes the menu but does NOT consume the event (control falls
through to the icon scan). -/
def menuStep (d : Desktop) (mouse : Pos) (now : ℚ) : Step :=
  if d.start_open then
    match MENU_ITEMS.find? (fun rn => rn.1.collidepoint mouse) with
    | some rn =>
        .ret ((d.spawn_window rn.2 (520, 360)).map
          (fun d1 => { d1 with start_open := false }))
    | none =>
        if POWER_BTN.collidepoint mouse then
          .ret (some { d with power_open := true, start_open := false })
        else if !MENU_RECT.collidepoint mouse && !STARTBTN.collidepoint mouse then
          iconsStep { d with start_open := false } mouse now
        else iconsStep d mouse now
  else iconsStep d mouse now

/-- The left mouse-down block of `Desktop.handle_event` (lines 971–1026):
start button first, then start menu, icons, taskbar, windows. -/
def Desktop.mdownBlock (d : Desktop) (mouse : Pos) (now : ℚ) : Step :=
  if STARTBTN.collidepoint mouse then
    .ret (some { d with start_open := !d.start_open })
  else menuStep d mouse now

/-- Power-dialog stage (lines 1028–1046), reached whether or not the
mouse-down block fell through: on a left mouse-down over one of the four
action rectangles, close the dialog and perform the action.  Shutdown is
`pygame.quit(); sys.exit()` (`none`); Restart clears the z-order and
respawns the welcome Notes window; Sleep minimizes every window and
enters sleep mode; Cancel just closes the dialog. -/
def powerStep (d : Desktop) (e : PEvent) : Step :=
  if d.power_open then
    match e with
    | .mouseDown b p =>
        if b = 1 then
          match POWER_ACTIONS.find? (fun ri => ri.1.collidepoint p) with
          | none => .cont d
          | some ri =>
              let d1 := { d with power_open := false }
              if ri.2 = 0 then .ret none
              else if ri.2 = 1 then
                .ret (({ d1 with windows := [] }).spawn_window "Notes" (540, 420))
              else if ri.2 = 2 then
                .ret (some { d1 with
                  windows := d1.windows.map (fun w => { w with minimized := true }),
                  sleeping := true })
              else .ret (some d1)
        else .cont d
    | _ => .cont d
  else .cont d

/-- Update the first matching element of the list, keep the rest. -/
def updFirst {α : Type} (p : α → Bool) (f : α → α) : List α → List α
  | [] => []
  | a :: t => if p a then f a :: t else a :: updFirst p f t

/-- The forward-to-focused loop (lines 1048–1051): the topmost
non-minimized window under the pointer (scanning `reversed(windows)`)
gets `win.handle_event(e)`; everything below is untouched. -/
def forwardToFocused (ws : List Window) (e : PEvent) (mouse : Pos) : List Window :=
  (updFirst (fun w => !w.minimized && w.rect.collidepoint mouse)
    (fun w => w.handle_event e) ws.reverse).reverse

/-- Global key handling (lines 1053–1058): Escape closes the start menu;
ALT+TAB rotates the z-order (`pop(0)` then `append`). -/
def globalKeys (d : Desktop) (e : PEvent) : Desktop :=
  match e with
  | .keyDown k alt =>
      let d1 := if k = K_ESCAPE ∧ d.start_open then { d with start_open := false } else d
      if k = K_TAB ∧ alt then
        match d1.windows with
        | [] => d1
        | w :: rest => { d1 with windows := rest ++ [w] }
      else d1
  | _ => d

/-- `Desktop.handle_event` (lines 965–1058).  While sleeping, any click
or key-down wakes the desktop and nothing else is processed.  Otherwise:
the left mouse-down block, then the power dialog, then forwarding to the
topmost non-minimized window under the pointer, then global keys.
`mouse` is `pygame.mouse.get_pos()`; `now` is `time.time()`. -/
def Desktop.handle_event (d : Desktop) (e : PEvent) (mouse : Pos) (now : ℚ) :
    Option Desktop :=
  if d.sleeping then
    if e.isWake then some { d with sleeping := false } else some d
  else
    let s1 : Step :=
      match e with
      | .mouseDown b _ => if b = 1 then d.mdownBlock mouse now else .cont d
      | _ => .cont d
    match s1 with
    | .ret r => r
    | .cont d1 =>
        match powerStep d1 e with
        | .ret r => r
        | .cont d2 =>
            let d3 := { d2 with windows := forwardToFocused d2.windows e mouse }
            some (globalKeys d3 e)

/-- One main-loop iteration for a single non-`QUIT`, non-`VIDEORESIZE`
event (lines 1110–1129): `desktop.handle_event(ev)`, then the icon-drag
bookkeeping (left mouse-up clears every icon's drag flag; motion moves
every dragging icon), then the event is forwarded to EVERY window's
`handle_event`, regardless of what the desktop already did with it. -/
def tickEvent (d : Desktop) (e : PEvent) (mouse : Pos) (now : ℚ) :
    Option Desktop :=
  match d.handle_event e mouse now with
  | none => none
  | some d1 =>
      let d2 : Desktop :=
        match e with
        | .mouseUp b _ =>
            if b = 1 then
              { d1 with icons := d1.icons.map (fun i => { i with dragging := false }) }
            else d1
        | _ => d1
      let d3 : Desktop :=
        match e with
        | .mouseMotion p =>
            { d2 with icons := d2.icons.map (fun i =>
                if i.dragging then
                  { i with rect := { i.rect with x := p.1 - i.off.1, y := p.2 - i.off.2 } }
                else i) }
        | _ => d2
      some { d3 with windows := d3.windows.map (fun w => w.handle_event e) }

/-- The per-frame draw pass as far as it refreshes stored hit-test state
(lines 953–963): nothing while sleeping; otherwise every window's title
buttons and the taskbar buttons (160-wide buttons from
`start_btn.right + 8 = 136`, stepping 166) are refreshed. -/
def taskButtonsOf (ws : List Window) : List (Rect × Nat) :=
  ws.enum.map (fun iw =>
    (⟨136 + 166 * (iw.1 : Int), H - TASKBAR_H + 6, 160, TASKBAR_H - 8⟩, iw.2.z))

/-- Per-frame refresh of drawn hit-test state on the desktop. -/
def Desktop.draw_sync (d : Desktop) : Desktop :=
  if d.sleeping then d
  else { d with windows := d.windows.map Window.draw_sync,
                task_buttons := taskButtonsOf d.windows }

/-- The desktop icons created by `Desktop.__init__` (lines 857–861):
a two-column grid starting at (24, 24) with 88-pixel pitch. -/
def initIcons : List Icon :=
  (["Notes", "Sketch", "Settings", "Calculator", "Snake", "TicTacToe",
    "Finder", "XL DRIFT", "ChatApp"] : List String).enum.map (fun inm =>
    { name := inm.2,
      rect := ⟨24 + 88 * ((inm.1 : Int) % 2), 24 + 88 * ((inm.1 : Int) / 2),
               ICON_SIZE, ICON_SIZE⟩,
      last_click := 0, dragging := false, off := (0, 0) })

/-- The desktop state built by `Desktop.__init__` before the welcome
window is spawned (lines 850–863). -/
def Desktop.empty : Desktop :=
  { icons := initIcons, windows := [], seq := 0, start_open := false,
    power_open := false, sleeping := false, task_buttons := [] }

/-- The initial desktop (lines 849–865): icons plus the spawned welcome
`Notes` window of size 540×420 (`"Notes"` is in the registry, so the
spawn succeeds; `getD` only discharges the `Option`). -/
def initDesktop : Desktop :=
  (Desktop.empty.spawn_window "Notes" (540, 420)).getD Desktop.empty

/-- Run one tick per event followed by the draw pass, as the main loop
does frame after frame (each triple is event, `pygame.mouse.get_pos()`,
`time.time()`). -/
def runTrace (d : Desktop) : List (PEvent × Pos × ℚ) → Option Desktop
  | [] => some d
  | (e, m, t) :: rest =>
      match tickEvent d e m t with
      | none => none
      | some d1 => runTrace d1.draw_sync rest

/-! ## Window-manager operations for the z-order claim -/

/-- The three window-management operations of claim C1, on window
identities. -/
inductive WMOp where
  | spawn (name : String) (size : Int × Int)
  | focus (z : Nat)
  | close (z : Nat)
deriving DecidableEq

/-- Apply one window-management operation to the desktop. -/
def applyOp (d : Desktop) : WMOp → Option Desktop
  | .spawn n sz => d.spawn_window n sz
  | .focus z => d.focus z
  | .close z => some (d.close z)

/-- Run a sequence of window-management operations; `none` as soon as one
raises (unknown app name, or focusing a window that is not open). -/
def runOps (d : Desktop) : List WMOp → Option Desktop
  | [] => some d
  | op :: rest =>
      match applyOp d op with
      | none => none
      | some d' => runOps d' rest

/-- Specification-level bookkeeping for claim C1: the identities of the
currently-open windows in focus-recency order (latest last), the next
fresh identity, and the most recently focused identity. -/
structure SpecSt where
  opened : List Nat
  next : Nat
  lf : Option Nat
deriving DecidableEq

/-- Specification-level step: spawning opens a fresh identity and focuses
it; focusing moves an open identity to the end; closing removes an
identity.  (Sequences on which the program raises are excluded by the
hypothesis of the claim's theorem, so totality here is harmless.) -/
def specStep (s : SpecSt) : WMOp → SpecSt
  | .spawn _ _ => ⟨s.opened ++ [s.next], s.next + 1, some s.next⟩
  | .focus z =>
      ⟨if s.opened.contains z then removeFirst (fun a => a == z) s.opened ++ [z]
        else s.opened, s.next, some z⟩
  | .close z => ⟨removeFirst (fun a => a == z) s.opened, s.next, s.lf⟩

/-- Fold `specStep` over an operation sequence. -/
def specRun (s : SpecSt) : List WMOp → SpecSt
  | [] => s
  | op :: rest => specRun (specStep s op) rest

/-- Spec state matching `initDesktop`: the welcome window 0 is open and
focused, the next identity is 1. -/
def initSpec : SpecSt := ⟨[0], 1, some 0⟩

/-- The identities of the windows still open after a sequence of
operations from the initial desktop. -/
def openIdsAfter (ops : List WMOp) : List Nat := (specRun initSpec ops).opened

/-- The most recently focused identity after a sequence of operations
(spawning counts as focusing the new window). -/
def lastFocusedAfter (ops : List WMOp) : Option Nat := (specRun initSpec ops).lf

/-- Whether the most recently focused window is still open. -/
def lfOpen (ops : List WMOp) : Bool :=
  match lastFocusedAfter ops with
  | some a => (openIdsAfter ops).contains a
  | none => false

/-- The z-order invariant relating the desktop to the specification
bookkeeping: the z-order's identities are exactly the open identities (in
the same recency order), identities are fresh and duplicate-free, and the
most recently focused identity, when still open, sits at the tail. -/
def C1Inv (d : Desktop) (s : SpecSt) : Prop :=
  d.windows.map (fun w => w.z) = s.opened
  ∧ s.next = d.seq
  ∧ (∀ a ∈ s.opened, a < s.next)
  ∧ s.opened.Nodup
  ∧ (∀ a, s.lf = some a → a ∈ s.opened → s.opened.getLast? = some a)

/-! ## Concrete states and traces used by counterexamples and witnesses -/

/-- Whether an event is a left mouse-down on one of the window's title
buttons — the one case `Window.handle_event` consumes without forwarding
to the App. -/
def chromeButtonHit (w : Window) (e : PEvent) : Bool :=
  match e with
  | .mouseDown b p =>
      b == 1 && w.titlebar_rect.collidepoint p && (w.hit_title_buttons p).isSome
  | _ => false

/-- The window state after one pointer-motion event. -/
def Window.afterMotion (w : Window) (p : Pos) : Window :=
  w.handle_event (.mouseMotion p)

/-- A window dragged to the right edge (x = 1060 is reachable by drag,
which allows x up to `W - 60 = 1220`) that is being resized. -/
def c2winA : Window :=
  { Window.new "Notes" ⟨1060, 100, 220, 140⟩ 0 with resizing := true }

/-- A window near the bottom of the screen being dragged. -/
def c2winB : Window :=
  { Window.new "Notes" ⟨300, 600, 220, 140⟩ 1 with
      dragging := true, drag_offset := (10, 10) }

/-- A window dragged into the bottom-left corner so that its frame covers
the taskbar start button (y = 644 is the drag clamp's maximum). -/
def c3win : Window := (Window.new "Notes" ⟨0, 644, 220, 140⟩ 0).draw_sync

/-- The initial desktop with its welcome window dragged over the start
button, in drawn state. -/
def c3desk : Desktop := ({ initDesktop with windows := [c3win] }).draw_sync

/-- The freshly drawn welcome window (x-button rectangle at
(692, 126, 22, 18)). -/
def c4win : Window := (Window.new "Notes" ⟨180, 120, 540, 420⟩ 0).draw_sync

/-- Four clicks driving the initial desktop into sleep while an icon drag
is still active: press on the Notes icon (beginning an icon drag), press
the start button, press the start menu's power button, press the power
dialog's Sleep rectangle.  No mouse-up occurs, so the icon keeps its drag
flag (the stream interface allows consecutive downs; a touchpad tap-plus
-click produces exactly this). -/
def c6t : List (PEvent × Pos × ℚ) :=
  [(.mouseDown 1 (56, 56), (56, 56), 100),
   (.mouseDown 1 (68, 690), (68, 690), 101),
   (.mouseDown 1 (100, 646), (100, 646), 102),
   (.mouseDown 1 (700, 350), (700, 350), 103)]

/-- A pointer motion delivered while the desktop sleeps. -/
def c6e5 : PEvent × Pos × ℚ := (.mouseMotion (500, 500), (500, 500), 104)

/-- A physical click sequence that drags the Notes icon under the spot
where the power dialog's Sleep button will appear, then opens the power
dialog and clicks Sleep: press the icon, move, release, open the start
menu, open the power dialog, click the Sleep rectangle (which now also
lies on the icon). -/
def c7t : List (PEvent × Pos × ℚ) :=
  [(.mouseDown 1 (56, 56), (56, 56), 0),
   (.mouseMotion (700, 350), (700, 350), 1),
   (.mouseUp 1 (700, 350), (700, 350), 2),
   (.mouseDown 1 (68, 690), (68, 690), 200),
   (.mouseDown 1 (100, 646), (100, 646), 201),
   (.mouseDown 1 (700, 350), (700, 350), 300)]

/-- Bottom window of the C9 counterexample pair. -/
def c9w1 : Window := Window.new "Notes" ⟨100, 100, 300, 300⟩ 0

/-- Top window of the C9 counterexample pair; its frame overlaps
`c9w1`'s. -/
def c9w2 : Window := Window.new "Sketch" ⟨150, 150, 300, 300⟩ 1

/-- A drawn desktop with two overlapping windows. -/
def c9d : Desktop :=
  ({ Desktop.empty with windows := [c9w1, c9w2], seq := 2 }).draw_sync

/-- A demonstration operation sequence for the z-order claim: two spawns,
a focus, a close, a focus. -/
def c1demo : List WMOp :=
  [.spawn "Sketch" (520, 360), .spawn "Snake" (520, 360), .focus 1,
   .close 2, .focus 0]

/-- The desktop reached by `c1demo` (the run succeeds; `getD` only
discharges the `Option`). -/
def c1demoD : Desktop := (runOps initDesktop c1demo).getD Desktop.empty

/-- A sleeping desktop with every window minimized and no icon drag in
progress, used to witness the amended sleep-mode claim. -/
def c6demoD : Desktop :=
  { Desktop.empty with
      windows := [{ Window.new "Notes" ⟨180, 120, 540, 420⟩ 0 with minimized := true }],
      seq := 1, sleeping := true }

/-! ## Helper lemmas -/

theorem Rect.collidepoint_iff (r : Rect) (p : Pos) :
    r.collidepoint p = true ↔
      (r.x ≤ p.1 ∧ p.1 < r.x + r.w ∧ r.y ≤ p.2 ∧ p.2 < r.y + r.h) := by
  simp [Rect.collidepoint, and_assoc]

theorem removeFirst_sublist {α : Type} (p : α → Bool) (l : List α) :
    List.Sublist (removeFirst p l) l := by
  induction l with
  | nil => simp [removeFirst]
  | cons a t ih =>
      simp only [removeFirst]
      split
      · exact List.sublist_cons_self a t
      · exact ih.cons₂ a

theorem mem_of_mem_removeFirst {α : Type} {p : α → Bool} {l : List α} {a : α}
    (h : a ∈ removeFirst p l) : a ∈ l :=
  (removeFirst_sublist p l).mem h

theorem nodup_removeFirst {α : Type} (p : α → Bool) {l : List α}
    (h : l.Nodup) : (removeFirst p l).Nodup :=
  h.sublist (removeFirst_sublist p l)

theorem map_removeFirst {α β : Type} (f : α → β) (p : β → Bool) (l : List α) :
    (removeFirst (fun a => p (f a)) l).map f = removeFirst p (l.map f) := by
  induction l with
  | nil => simp [removeFirst]
  | cons a t ih =>
      simp only [removeFirst, List.map_cons]
      split <;> simp_all

theorem map_z_removeFirst (ws : List Window) (z : Nat) :
    (removeFirst (fun w => w.z == z) ws).map (fun w => w.z)
      = removeFirst (fun a => a == z) (ws.map (fun w => w.z)) :=
  map_removeFirst (fun w => w.z) (fun a => a == z) ws

theorem not_mem_removeFirst_self {l : List Nat} (z : Nat) (h : l.Nodup) :
    z ∉ removeFirst (fun a => a == z) l := by
  induction l with
  | nil => simp [removeFirst]
  | cons a t ih =>
      rcases List.nodup_cons.mp h with ⟨ha, ht⟩
      simp only [removeFirst]
      split
      · next heq =>
          have : a = z := by simpa using heq
          subst this
          exact ha
      · next hne =>
          intro hz
          rcases List.mem_cons.mp hz with h1 | h2
          · subst h1; simp at hne
          · exact ih ht h2

theorem mem_removeFirst_of_ne {l : List Nat} {a z : Nat} (hne : a ≠ z) :
    a ∈ removeFirst (fun b => b == z) l ↔ a ∈ l := by
  induction l with
  | nil => simp [removeFirst]
  | cons b t ih =>
      simp only [removeFirst]
      split
      · next heq =>
          have hbz : b = z := by simpa using heq
          subst hbz
          simp [List.mem_cons, fun h : a = b => hne h]
      · simp [List.mem_cons, ih]

theorem removeFirst_eq_self {α : Type} (p : α → Bool) {l : List α}
    (h : ∀ a ∈ l, p a = false) : removeFirst p l = l := by
  induction l with
  | nil => rfl
  | cons a t ih =>
      have ha : p a = false := h a (List.mem_cons_self a t)
      simp only [removeFirst, ha, Bool.false_eq_true, if_false]
      rw [ih (fun b hb => h b (List.mem_cons_of_mem a hb))]

theorem removeFirst_append_left {α : Type} (p : α → Bool) (l₁ l₂ : List α)
    (h : ∀ a ∈ l₁, p a = false) :
    removeFirst p (l₁ ++ l₂) = l₁ ++ removeFirst p l₂ := by
  induction l₁ with
  | nil => rfl
  | cons a t ih =>
      have ha : p a = false := h a (List.mem_cons_self a t)
      rw [List.cons_append]
      simp only [removeFirst, ha, Bool.false_eq_true, if_false]
      rw [ih (fun b hb => h b (List.mem_cons_of_mem a hb)), List.cons_append]

theorem getLast?_cons_of_some {α : Type} (a : α) {l : List α} {b : α}
    (h : l.getLast? = some b) : (a :: l).getLast? = some b := by
  cases l with
  | nil => simp at h
  | cons c t => rw [List.getLast?_cons_cons]; exact h

theorem getLast?_removeFirst {α : Type} (p : α → Bool) {l : List α} {b : α}
    (hl : l.getLast? = some b) (hb : p b = false) :
    (removeFirst p l).getLast? = some b := by
  induction l with
  | nil => simp at hl
  | cons a t ih =>
      cases t with
      | nil =>
          simp only [List.getLast?_singleton, Option.some_inj] at hl
          subst hl
          simp [removeFirst, hb]
      | cons c t2 =>
          rw [List.getLast?_cons_cons] at hl
          simp only [removeFirst]
          split
          · exact hl
          · exact getLast?_cons_of_some a (ih hl)

theorem getLast?_eq_some_append {α : Type} {l : List α} {a : α}
    (h : l.getLast? = some a) : ∃ t, l = t ++ [a] := by
  induction l with
  | nil => simp at h
  | cons b t ih =>
      cases t with
      | nil =>
          simp only [List.getLast?_singleton, Option.some_inj] at h
          subst h
          exact ⟨[], rfl⟩
      | cons c t2 =>
          rw [List.getLast?_cons_cons] at h
          obtain ⟨t', ht⟩ := ih h
          exact ⟨b :: t', by simp [ht]⟩

theorem nodup_append_singleton {α : Type} {l : List α} {x : α}
    (h : l.Nodup) (hx : x ∉ l) : (l ++ [x]).Nodup := by
  induction l with
  | nil => simp
  | cons a t ih =>
      rcases List.nodup_cons.mp h with ⟨ha, ht⟩
      have hx' : x ∉ t := fun hm => hx (List.mem_cons_of_mem a hm)
      have hax : a ≠ x := fun he => hx (he ▸ List.mem_cons_self a t)
      rw [List.cons_append]
      refine List.nodup_cons.mpr ⟨?_, ih ht hx'⟩
      intro hmem
      rcases List.mem_append.mp hmem with h1 | h1
      · exact ha h1
      · simp at h1
        exact hax h1

theorem eq_nil_of_getLast?_eq_none {α : Type} :
    ∀ {l : List α}, l.getLast? = none → l = []
  | [], _ => rfl
  | a :: t, h => by
      exfalso
      induction t generalizing a with
      | nil => simp at h
      | cons b t2 ih => rw [List.getLast?_cons_cons] at h; exact ih b h

theorem contains_of_mem {l : List Nat} {z : Nat} (h : z ∈ l) :
    l.contains z = true := by
  simp [List.contains, List.elem_iff, h]

theorem map_id_of {α : Type} (f : α → α) (l : List α) (h : ∀ a ∈ l, f a = a) :
    l.map f = l := by
  induction l with
  | nil => rfl
  | cons a t ih =>
      simp only [List.map_cons, h a (List.mem_cons_self a t)]
      rw [ih (fun b hb => h b (List.mem_cons_of_mem a hb))]

theorem Window.handle_event_minimized (w : Window) (e : PEvent)
    (h : w.minimized = true) : w.handle_event e = w := by
  simp [Window.handle_event, h]

theorem Window.hEventCore_preserves {w w2 : Window} {e : PEvent}
    (h : w.hEventCore e = some w2) :
    w2.appLog = w.appLog ∧ w2.minimized = w.minimized ∧ w2.z = w.z := by
  cases e <;> simp only [Window.hEventCore] at h <;>
    (try split at h) <;> (try split at h) <;> (try split at h) <;>
    simp_all <;> (subst h; simp)

theorem Window.handle_event_eq_forward {w w2 : Window} {e : PEvent}
    (hm : w.minimized = false) (h : w.hEventCore e = some w2) :
    w.handle_event e = { w2 with appLog := w2.appLog ++ [(e, w2.content_rect)] } := by
  simp [Window.handle_event, hm, h]

theorem Desktop.focusMem_of_last (d : Desktop) (w : Window)
    (h : d.windows.getLast? = some w) : d.focusMem w.z = d := by
  simp [Desktop.focusMem, Desktop.focus, h]

/-- Unfolding equation for a successful spawn: for a registered name, the
new window is appended at the tail of the z-order and the identity
counter advances. -/
theorem Desktop.spawn_window_eq (d : Desktop) (name : String) (size : Int × Int)
    (h : APP_MAP.contains name = true) :
    d.spawn_window name size =
      some { d with
        windows := d.windows ++
          [Window.new name
            ⟨180 + (d.windows.length : Int) * 16, 120 + (d.windows.length : Int) * 12,
             max MIN_W size.1, max MIN_H size.2⟩ d.seq],
        seq := d.seq + 1 } := by
  simp only [Desktop.spawn_window, h, if_true]
  congr 1
  exact Desktop.focusMem_of_last _ _ (List.getLast?_concat _)

theorem collidepoint_false_of (r : Rect) (p : Pos)
    (h : ¬(r.x ≤ p.1 ∧ p.1 < r.x + r.w ∧ r.y ≤ p.2 ∧ p.2 < r.y + r.h)) :
    r.collidepoint p = false := by
  rw [Bool.eq_false_iff, Ne, Rect.collidepoint_iff]
  exact h

theorem iconsScan_eq_none (mouse : Pos) (now : ℚ) (icons : List Icon)
    (h : ∀ i ∈ icons, i.rect.collidepoint mouse = false) :
    iconsScan mouse now icons = none := by
  induction icons with
  | nil => rfl
  | cons a t ih =>
      simp only [iconsScan, h a (List.mem_cons_self a t), Bool.false_eq_true, if_false]
      rw [ih (fun i hi => h i (List.mem_cons_of_mem a hi))]
      rfl

/-- When the pointer is inside the power-dialog button band (which is
disjoint from the start button, the start menu, and the menu's power
button) and hits no icon, no stored taskbar button and no non-minimized
window, the whole left mouse-down block falls through, having at most
closed the start menu. -/
theorem mdown_fall_through (d : Desktop) (p : Pos) (now : ℚ)
    (hx : 454 ≤ p.1) (_hy : 334 ≤ p.2) (_hy2 : p.2 < 374)
    (hic : ∀ ico ∈ d.icons, ico.rect.collidepoint p = false)
    (htb : ∀ bz ∈ d.task_buttons, bz.1.collidepoint p = false)
    (hwin : ∀ w ∈ d.windows, w.minimized = true ∨ w.rect.collidepoint p = false) :
    d.mdownBlock p now = .cont { d with start_open := false } := by
  have hsb : STARTBTN.collidepoint p = false :=
    collidepoint_false_of _ _ (by simp [STARTBTN, H, TASKBAR_H]; omega)
  have hmr : MENU_RECT.collidepoint p = false :=
    collidepoint_false_of _ _ (by simp [MENU_RECT, H, TASKBAR_H]; omega)
  have hpb : POWER_BTN.collidepoint p = false :=
    collidepoint_false_of _ _ (by simp [POWER_BTN, MENU_RECT, H, TASKBAR_H]; omega)
  have hmi : MENU_ITEMS.find? (fun rn => rn.1.collidepoint p) = none := by
    rw [List.find?_eq_none]
    intro rn hrn
    have hb : rn.1.x + rn.1.w ≤ 258 := by
      have hall : ∀ x ∈ MENU_ITEMS, x.1.x + x.1.w ≤ 258 := by decide
      exact hall rn hrn
    rw [Rect.collidepoint_iff]
    omega
  have hscan : iconsScan p now d.icons = none := iconsScan_eq_none _ _ _ hic
  have htbf : d.task_buttons.find? (fun bz => bz.1.collidepoint p) = none := by
    rw [List.find?_eq_none]
    intro bz hbz
    simp [htb bz hbz]
  have hwf : d.windows.reverse.find?
      (fun w => !w.minimized && w.rect.collidepoint p) = none := by
    rw [List.find?_eq_none]
    intro w hw
    rcases hwin w (List.mem_reverse.mp hw) with h | h <;> simp [h]
  cases hso : d.start_open with
  | false =>
      have hde : ({ d with start_open := false } : Desktop) = d := by rw [← hso]
      rw [hde]
      simp [Desktop.mdownBlock, hsb, menuStep, hso, iconsStep, hscan, taskbarStep,
        htbf, windowsStep, hwf]
  | true =>
      simp [Desktop.mdownBlock, hsb, menuStep, hso, hmi, hpb, hmr, iconsStep, hscan,
        taskbarStep, htbf, windowsStep, hwf]

theorem Window.motion_log (w : Window) (p : Pos) (hm : w.minimized = false) :
    (w.handle_event (.mouseMotion p)).appLog.length = w.appLog.length + 1
  ∧ (w.handle_event (.mouseMotion p)).minimized = false := by
  by_cases hd : w.dragging = true <;> by_cases hr : w.resizing = true <;>
    simp [Window.handle_event, Window.hEventCore, hm, hd, hr]

/-! ## Claim C5: maximize round-trip -/

/-- C5: for any non-minimized window in the Normal lifecycle state
(`maximized = false`), performing the maximize toggle of
`Desktop.handle_event` twice in succession (with no intervening frame
changes) restores the window's frame rectangle — and its lifecycle
state — to exactly the value it had before the first toggle. -/
theorem c5_maximize_roundtrip (w : Window) (_hmin : w.minimized = false)
    (hmax : w.maximized = false) :
    (w.toggle_maximize.toggle_maximize).rect = w.rect
  ∧ (w.toggle_maximize.toggle_maximize).maximized = false := by
  simp [Window.toggle_maximize, hmax]

/-- Witness for C5 at a concrete window. -/
theorem c5_maximize_roundtrip_witness :
    (((Window.new "Sketch" ⟨200, 150, 400, 300⟩ 7).toggle_maximize.toggle_maximize).rect
        = (Window.new "Sketch" ⟨200, 150, 400, 300⟩ 7).rect)
  ∧ (((Window.new "Sketch" ⟨200, 150, 400, 300⟩ 7).toggle_maximize.toggle_maximize).maximized
        = false) :=
  c5_maximize_roundtrip (Window.new "Sketch" ⟨200, 150, 400, 300⟩ 7)
    (by decide) (by decide)

/-! ## Claim C2: drag/resize geometry clamp -/

/-- C2 counterexample: the claim "the resulting frame satisfies
`width ≥ MIN_W` and `height ≥ MIN_H` and stays within the permitted
on-screen bounds (not overlapping the taskbar vertically)" is false.
`c2winA` (a window dragged near the right edge, reachable since drag
allows `x` up to `W - 60 = 1220` and the resize grip at `x + 208` is
still under the pointer for `x = 1060`) ends with width `210 < MIN_W`
after a resize motion, because the source applies the `max` with `MIN_W`
BEFORE the `min` with `sw - x - 10` (lines 182–187).  `c2winB` (dragged
towards the bottom) ends with its frame bottom at `784 > H - TASKBAR_H =
676`: only the title bar is kept clear of the taskbar (line 179), the
frame body may overlap it and even extend past the screen bottom. -/
theorem c2_cex :
    (c2winA.resizing = true ∧ c2winA.minimized = false
      ∧ (c2winA.afterMotion (1279, 300)).rect.w < MIN_W)
  ∧ (c2winB.dragging = true ∧ c2winB.minimized = false
      ∧ (c2winB.afterMotion (310, 654)).rect.y + (c2winB.afterMotion (310, 654)).rect.h
          > H - TASKBAR_H) := by
  decide

/-- C2 (amended): for every pointer-motion input (including coordinates
far negative or far beyond the screen), the frame produced by
`Window.handle_event` of a non-minimized window with nonnegative width
satisfies: while dragging, the origin is clamped to
`[-width + 60, W - 60] × [0, H - TASKBAR_H - TITLEBAR_H]` (so part of the
title bar stays on screen and the title bar never overlaps the taskbar;
the frame body may); when not resizing the size is unchanged; while
resizing, width ≥ `min MIN_W (W - x - 10)` and height ≥
`min MIN_H (H - TASKBAR_H - y - 10)` (so the minimums hold whenever the
origin leaves room for them), and the frame never extends past
`W - 10` horizontally nor past `H - TASKBAR_H - 10` vertically. -/
theorem c2_geometry_clamp (w : Window) (p : Pos) (hm : w.minimized = false)
    (hw : 0 ≤ w.rect.w) :
    (w.dragging = true →
        -w.rect.w + 60 ≤ (w.afterMotion p).rect.x
      ∧ (w.afterMotion p).rect.x ≤ W - 60
      ∧ 0 ≤ (w.afterMotion p).rect.y
      ∧ (w.afterMotion p).rect.y ≤ H - TASKBAR_H - TITLEBAR_H)
  ∧ (w.resizing = false →
        (w.afterMotion p).rect.w = w.rect.w ∧ (w.afterMotion p).rect.h = w.rect.h)
  ∧ (w.resizing = true →
        min MIN_W (W - (w.afterMotion p).rect.x - 10) ≤ (w.afterMotion p).rect.w
      ∧ min MIN_H (H - TASKBAR_H - (w.afterMotion p).rect.y - 10) ≤ (w.afterMotion p).rect.h
      ∧ (w.afterMotion p).rect.x + (w.afterMotion p).rect.w ≤ W - 10
      ∧ (w.afterMotion p).rect.y + (w.afterMotion p).rect.h ≤ H - TASKBAR_H - 10) := by
  refine ⟨fun hd => ?_, fun hr => ?_, fun hr => ?_⟩
  · by_cases hr : w.resizing = true <;>
      simp [Window.afterMotion, Window.handle_event, Window.hEventCore, hm, hd, hr,
        W, H, TASKBAR_H, TITLEBAR_H, MIN_W, MIN_H] <;> omega
  · by_cases hd : w.dragging = true <;>
      simp [Window.afterMotion, Window.handle_event, Window.hEventCore, hm, hd, hr,
        W, H, TASKBAR_H, TITLEBAR_H, MIN_W, MIN_H]
  · by_cases hd : w.dragging = true <;>
      simp [Window.afterMotion, Window.handle_event, Window.hEventCore, hm, hd, hr,
        W, H, TASKBAR_H, TITLEBAR_H, MIN_W, MIN_H] <;> omega

/-- Witness for C2 (amended) at a concrete window being both dragged and
resized, with an out-of-range pointer position. -/
theorem c2_geometry_clamp_witness :
    (0 : Int) ≤ ({ Window.new "Snake" ⟨400, 300, 250, 160⟩ 2 with
        dragging := true, resizing := true, drag_offset := (20, 12) } : Window).rect.w
  ∧ (({ Window.new "Snake" ⟨400, 300, 250, 160⟩ 2 with
        dragging := true, resizing := true, drag_offset := (20, 12) } : Window).afterMotion
          (5000, -300)).rect.x
      + (({ Window.new "Snake" ⟨400, 300, 250, 160⟩ 2 with
            dragging := true, resizing := true, drag_offset := (20, 12) } : Window).afterMotion
          (5000, -300)).rect.w ≤ W - 10 := by
  refine ⟨by decide, ?_⟩
  have h := c2_geometry_clamp
    ({ Window.new "Snake" ⟨400, 300, 250, 160⟩ 2 with
        dragging := true, resizing := true, drag_offset := (20, 12) } : Window)
    (5000, -300) (by decide) (by decide)
  exact (h.2.2 (by decide)).2.2.1

/-! ## Claim C4: unconditional App forwarding -/

/-- C4 counterexample: the claim that `Window.handle_event` forwards
every event to the hosted App "even when the event was consumed by window
chrome (title-bar buttons, ...)" is false: a left mouse-down on the
drawn close button of a freshly drawn non-minimized window takes the
early `return btn` (source line 165) and the App's observation log stays
empty. -/
theorem c4_cex :
    c4win.minimized = false
  ∧ c4win.titlebar_rect.collidepoint (700, 130) = true
  ∧ (c4win.hit_title_buttons (700, 130)).isSome = true
  ∧ (c4win.handle_event (.mouseDown 1 (700, 130))).appLog = [] := by
  decide

/-- C4 (amended): `Window.handle_event` of a non-minimized window
forwards every event to the hosted App together with the (current)
content rect — including events consumed by drag or resize chrome —
EXCEPT a left mouse-down that hits a title-bar button, which is consumed
without forwarding. -/
theorem c4_forwarding (w : Window) (e : PEvent) (hm : w.minimized = false)
    (hc : chromeButtonHit w e = false) :
    (w.handle_event e).appLog = w.appLog ++ [(e, (w.handle_event e).content_rect)] := by
  have hsome : (w.hEventCore e).isSome = true := by
    cases e with
    | mouseDown b pos =>
        by_cases hb : b = 1
        · subst hb
          by_cases ht : w.titlebar_rect.collidepoint pos = true
          · have hbtn : w.hit_title_buttons pos = none := by
              cases hbtn : w.hit_title_buttons pos with
              | none => rfl
              | some t => exfalso; simp [chromeButtonHit, ht, hbtn] at hc
            simp [Window.hEventCore, ht, hbtn]
          · by_cases hg : w.grip_rect.collidepoint pos = true <;>
              simp [Window.hEventCore, ht, hg]
        · simp [Window.hEventCore, hb]
    | mouseUp b pos => by_cases hb : b = 1 <;> simp [Window.hEventCore, hb]
    | mouseMotion pos => simp [Window.hEventCore]
    | keyDown k alt => simp [Window.hEventCore]
    | keyUp k => simp [Window.hEventCore]
  obtain ⟨w2, hw2⟩ := Option.isSome_iff_exists.mp hsome
  rw [Window.handle_event_eq_forward hm hw2]
  have hlog := (Window.hEventCore_preserves hw2).1
  simp [Window.content_rect, hlog]

/-- Witness for C4 (amended): a title-bar mouse-down that begins a drag
(chrome-consumed but not a button hit) is still forwarded to the App. -/
theorem c4_forwarding_witness :
    ((Window.new "Notes" ⟨180, 120, 540, 420⟩ 0).draw_sync.handle_event
        (.mouseDown 1 (200, 130))).appLog
      = (Window.new "Notes" ⟨180, 120, 540, 420⟩ 0).draw_sync.appLog
        ++ [((.mouseDown 1 (200, 130)),
             ((Window.new "Notes" ⟨180, 120, 540, 420⟩ 0).draw_sync.handle_event
               (.mouseDown 1 (200, 130))).content_rect)] :=
  c4_forwarding ((Window.new "Notes" ⟨180, 120, 540, 420⟩ 0).draw_sync)
    (.mouseDown 1 (200, 130)) (by decide) (by decide)

/-! ## Claim C8: spawning and the app registry -/

/-- C8: for every app name not in the registry, `Desktop.spawn_window`
fails loudly (the `KeyError` from `APP_MAP[app_name]`, modelled as
`none`) rather than silently doing nothing — indeed it fails exactly for
unknown names — and for every registered name it constructs a fresh App
instance (empty observation log) hosted in a fresh window (identity
`seq`) appended at the tail of the z-order. -/
theorem c8_spawn_registry (d : Desktop) (name : String) (size : Int × Int) :
    (d.spawn_window name size = none ↔ name ∉ APP_MAP)
  ∧ (name ∈ APP_MAP →
      d.spawn_window name size =
        some { d with
          windows := d.windows ++
            [Window.new name
              ⟨180 + (d.windows.length : Int) * 16, 120 + (d.windows.length : Int) * 12,
               max MIN_W size.1, max MIN_H size.2⟩ d.seq],
          seq := d.seq + 1 }) := by
  have hb : APP_MAP.contains name = true ↔ name ∈ APP_MAP := by
    simp [List.contains, List.elem_iff]
  constructor
  · by_cases hmem : name ∈ APP_MAP
    · rw [Desktop.spawn_window_eq d name size (hb.mpr hmem)]
      simp [hmem]
    · have hc : APP_MAP.contains name = false := by
        have : ¬APP_MAP.contains name = true := fun h => hmem (hb.mp h)
        simpa using this
      simp [Desktop.spawn_window, hc, hmem]
  · intro hmem
    exact Desktop.spawn_window_eq d name size (hb.mpr hmem)

/-- Witness for C8: an unknown name aborts, a registered one spawns. -/
theorem c8_spawn_registry_witness :
    initDesktop.spawn_window "BogusApp" (520, 360) = none
  ∧ (initDesktop.spawn_window "Sketch" (520, 360)).isSome = true := by
  constructor
  · exact (c8_spawn_registry initDesktop "BogusApp" (520, 360)).1.mpr (by decide)
  · rw [(c8_spawn_registry initDesktop "Sketch" (520, 360)).2 (by decide)]
    rfl

/-! ## Claim C10: closing an absent window -/

/-- C10: `Desktop.close` on a window identity not present in the z-order
leaves the desktop completely unchanged; consequently closing the same
window twice is equivalent to closing it once (the z-order never holds
duplicate identities — see the C1 invariant — which the second part
assumes). -/
theorem c10_close_absent (d : Desktop) (z : Nat)
    (hnd : (d.windows.map (fun w => w.z)).Nodup) :
    (d.windows.any (fun w => w.z == z) = false → d.close z = d)
  ∧ (d.close z).close z = d.close z := by
  constructor
  · intro h
    simp [Desktop.close, h]
  · by_cases h : d.windows.any (fun w => w.z == z) = true
    · have h2 : (removeFirst (fun w => w.z == z) d.windows).any (fun w => w.z == z)
          = false := by
        rw [List.any_eq_false]
        intro w hw
        have hzmem : w.z ∈ (removeFirst (fun w => w.z == z) d.windows).map (fun w => w.z) :=
          List.mem_map_of_mem _ hw
        rw [map_z_removeFirst] at hzmem
        have hne : w.z ≠ z := by
          intro he
          exact not_mem_removeFirst_self z hnd (he ▸ hzmem)
        simp [hne]
      simp [Desktop.close, h, h2]
    · have h' : d.windows.any (fun w => w.z == z) = false := by simpa using h
      simp [Desktop.close, h']

/-- Witness for C10 at the initial desktop (only window 0 is open). -/
theorem c10_close_absent_witness :
    (initDesktop.windows.any (fun w => w.z == 5) = false →
      initDesktop.close 5 = initDesktop)
  ∧ (initDesktop.close 5).close 5 = initDesktop.close 5 :=
  c10_close_absent initDesktop 5 (by decide)

/-! ## Claim C3: start-button routing precedence -/

/-- C3 counterexample: at a point simultaneously inside the start button
and inside a window's frame (the window dragged into the bottom-left
corner), the left mouse-down does toggle the start menu, but the window's
hosted App still receives the event that tick — the main loop forwards
every event to every window after `Desktop.handle_event` (source lines
1127–1129) — so "the window receives no event during that tick" is
false. -/
theorem c3_cex :
    STARTBTN.collidepoint (10, 690) = true
  ∧ c3win.rect.collidepoint (10, 690) = true
  ∧ (tickEvent c3desk (.mouseDown 1 (10, 690)) (10, 690) 0).map
      (fun d => (d.start_open, d.windows.map (fun w => w.appLog.length)))
      = some (true, [1]) := by
  decide

/-- C3 (amended): a left mouse-down on the start button toggles the start
menu and `Desktop.handle_event` consumes the event without forwarding
anything to any window; but the main loop still passes the event to every
window's `handle_event` afterwards, so a window whose frame also contains
the point (and its hosted App) does receive the event that tick. -/
theorem c3_start_button (d : Desktop) (p : Pos) (now : ℚ)
    (hs : d.sleeping = false) (hp : STARTBTN.collidepoint p = true) :
    d.handle_event (.mouseDown 1 p) p now = some { d with start_open := !d.start_open }
  ∧ tickEvent d (.mouseDown 1 p) p now
      = some { d with
          start_open := !d.start_open,
          windows := d.windows.map (fun w => w.handle_event (.mouseDown 1 p)) } := by
  have h1 : d.handle_event (.mouseDown 1 p) p now
      = some { d with start_open := !d.start_open } := by
    simp [Desktop.handle_event, hs, Desktop.mdownBlock, hp]
  refine ⟨h1, ?_⟩
  simp [tickEvent, h1]

/-- Witness for C3 (amended) at the initial desktop. -/
theorem c3_start_button_witness :
    initDesktop.handle_event (.mouseDown 1 (68, 690)) (68, 690) 0
      = some { initDesktop with start_open := !initDesktop.start_open }
  ∧ tickEvent initDesktop (.mouseDown 1 (68, 690)) (68, 690) 0
      = some { initDesktop with
          start_open := !initDesktop.start_open,
          windows := initDesktop.windows.map
            (fun w => w.handle_event (.mouseDown 1 (68, 690))) } :=
  c3_start_button initDesktop (68, 690) 0 (by decide) (by decide)

/-! ## Claim C9: main-loop double forwarding -/

/-- C9 counterexample: with two overlapping non-minimized windows under
the pointer, a motion event reaches the bottom window's `handle_event`
exactly once (only via the main-loop forward), not "at least twice": the
desktop's own forward (lines 1048–1051) stops at the topmost hit.  The
observation logs after the tick are `[1, 2]`, not `[≥2, ≥2]`. -/
theorem c9_cex :
    c9w1.minimized = false ∧ c9w1.rect.collidepoint (200, 200) = true
  ∧ c9w2.minimized = false ∧ c9w2.rect.collidepoint (200, 200) = true
  ∧ (tickEvent c9d (.mouseMotion (200, 200)) (200, 200) 0).map
      (fun d' => d'.windows.map (fun w => w.appLog.length)) = some [1, 2] := by
  decide

/-- C9 (amended): every event taken from the queue (other than Quit and
surface resize) is forwarded by the main loop to `Window.handle_event` of
every window in the z-order, independently of the desktop's own routing;
but the desktop's extra forward reaches only the TOPMOST non-minimized
window under the pointer, so for a motion event over two overlapping
windows the top one processes the event twice and the bottom one exactly
once per tick. -/
theorem c9_forwarding (d : Desktop) (w1 w2 : Window) (p : Pos) (now : ℚ)
    (hw : d.windows = [w1, w2]) (hs : d.sleeping = false)
    (h1 : w1.minimized = false) (h2 : w2.minimized = false)
    (_hp1 : w1.rect.collidepoint p = true) (hp2 : w2.rect.collidepoint p = true) :
    (tickEvent d (.mouseMotion p) p now).map
        (fun d' => d'.windows.map (fun w => w.appLog.length))
      = some [w1.appLog.length + 1, w2.appLog.length + 2] := by
  have hfw : forwardToFocused d.windows (.mouseMotion p) p
      = [w1, w2.handle_event (.mouseMotion p)] := by
    simp [forwardToFocused, hw, updFirst, h2, hp2]
  have hpow : powerStep d (.mouseMotion p) = .cont d := by
    cases hpo : d.power_open <;> simp [powerStep, hpo]
  have hde : d.handle_event (.mouseMotion p) p now
      = some { d with windows := [w1, w2.handle_event (.mouseMotion p)] } := by
    simp [Desktop.handle_event, hs, hpow, globalKeys, hfw]
  have l1 := Window.motion_log w1 p h1
  have l2 := Window.motion_log w2 p h2
  have l3 := Window.motion_log (w2.handle_event (.mouseMotion p)) p l2.2
  simp [tickEvent, hde, l1.1, l3.1, l2.1]

/-- Witness for C9 (amended) at two concrete overlapping windows. -/
theorem c9_forwarding_witness :
    (tickEvent
        { Desktop.empty with
            windows := [Window.new "Notes" ⟨100, 100, 300, 300⟩ 0,
                        Window.new "Sketch" ⟨150, 150, 300, 300⟩ 1],
            seq := 2 }
        (.mouseMotion (222, 222)) (222, 222) 5).map
        (fun d' => d'.windows.map (fun w => w.appLog.length))
      = some [(Window.new "Notes" ⟨100, 100, 300, 300⟩ 0).appLog.length + 1,
              (Window.new "Sketch" ⟨150, 150, 300, 300⟩ 1).appLog.length + 2] :=
  c9_forwarding
    { Desktop.empty with
        windows := [Window.new "Notes" ⟨100, 100, 300, 300⟩ 0,
                    Window.new "Sketch" ⟨150, 150, 300, 300⟩ 1],
        seq := 2 }
    (Window.new "Notes" ⟨100, 100, 300, 300⟩ 0)
    (Window.new "Sketch" ⟨150, 150, 300, 300⟩ 1)
    (222, 222) 5 rfl (by decide) (by decide) (by decide) (by decide) (by decide)

/-! ## Claim C6: sleep mode -/

/-- C6 counterexample: drive the initial desktop into sleep with an icon
drag still active (`c6t`: icon press, start press, power press, Sleep
press, with no intervening mouse-up — a stream the event interface
permits).  The desktop is asleep with the Notes icon at x = 24; one
pointer-motion event later the desktop is STILL asleep but the icon has
moved to x = 468: the main loop's icon-drag handling (lines 1120–1126)
processes events while the desktop sleeps, so "no event of any kind is
processed by any other component (no ... icon ... state changes)" is
false. -/
theorem c6_cex :
    (runTrace initDesktop c6t).map
        (fun d => (d.sleeping, d.icons.map (fun i => i.rect.x)))
      = some (true, [24, 112, 24, 112, 24, 112, 24, 112, 24])
  ∧ (runTrace initDesktop (c6t ++ [c6e5])).map
        (fun d => (d.sleeping, d.icons.map (fun i => i.rect.x)))
      = some (true, [468, 112, 24, 112, 24, 112, 24, 112, 24]) := by
  decide

/-- C6 (amended): while sleeping, any mouse-button-down or key-down wakes
the desktop, and `Desktop.handle_event` processes nothing else (windows,
apps and menu state are untouched — every window is minimized while
asleep, so even the main loop's unconditional window forwarding is a
no-op); but the main loop's icon-drag bookkeeping still runs, so the
no-state-change guarantee holds only when no icon drag is in progress:
under that proviso a motion, mouse-up or key-up tick leaves the desktop
literally unchanged. -/
theorem c6_sleep (d : Desktop) (p : Pos) (now : ℚ) (b k : Int) (alt : Bool)
    (hs : d.sleeping = true)
    (hwin : ∀ w ∈ d.windows, w.minimized = true)
    (hico : ∀ ico ∈ d.icons, ico.dragging = false) :
    tickEvent d (.mouseMotion p) p now = some d
  ∧ tickEvent d (.mouseUp b p) p now = some d
  ∧ tickEvent d (.keyUp k) p now = some d
  ∧ d.handle_event (.mouseDown b p) p now = some { d with sleeping := false }
  ∧ d.handle_event (.keyDown k alt) p now = some { d with sleeping := false } := by
  obtain ⟨ic, ws, sq, so, po, sl, tb⟩ := d
  have hs' : sl = true := hs
  subst hs'
  have hmapw : ∀ e : PEvent, ws.map (fun w => w.handle_event e) = ws :=
    fun e => map_id_of _ _ (fun w hw => Window.handle_event_minimized w e (hwin w hw))
  have hicomove : ic.map (fun i =>
      if i.dragging then
        { i with rect := { i.rect with x := p.1 - i.off.1, y := p.2 - i.off.2 } }
      else i) = ic :=
    map_id_of _ _ (fun i hi => by simp [hico i hi])
  have hicoclear : ic.map (fun i => { i with dragging := false }) = ic :=
    map_id_of _ _ (fun i hi => by rw [← hico i hi])
  refine ⟨?_, ?_, ?_, ?_, ?_⟩
  · simp [tickEvent, Desktop.handle_event, PEvent.isWake, hicomove, hmapw]
  · by_cases hb : b = 1 <;>
      simp [tickEvent, Desktop.handle_event, PEvent.isWake, hb, hicoclear, hmapw]
  · simp [tickEvent, Desktop.handle_event, PEvent.isWake, hmapw]
  · simp [Desktop.handle_event, PEvent.isWake]
  · simp [Desktop.handle_event, PEvent.isWake]

/-! ## Claim C7: power dialog actions -/

/-- C7 counterexample: the power-dialog claim is not unconditional.  In
`c7t` the Notes icon is (physically) dragged under the spot where the
Sleep rectangle will appear, the power dialog is opened, and a click
lands inside the Sleep rectangle: the icon scan (which runs BEFORE the
power-dialog stage, lines 985–994 vs 1028–1046) consumes the click and
begins an icon drag, so the dialog stays open and no sleep transition
happens.  (The first icon click happens at time 0, so the stored
`last_click` stays falsy — the source treats a click at time exactly 0 as
no previous click — and the sixth event takes the drag-start branch
outright.) -/
theorem c7_cex :
    (powerActionRect 2).collidepoint (700, 350) = true
  ∧ (runTrace initDesktop (c7t.take 5)).map (fun d => d.power_open) = some true
  ∧ (runTrace initDesktop c7t).map
      (fun d => (d.power_open, d.sleeping, d.icons.map (fun i => i.dragging)))
      = some (true, false,
          [true, false, false, false, false, false, false, false, false]) := by
  decide

/-- C7 (amended): when the power dialog is open and a left click lands on
one of its four action rectangles — provided the click point is not over
any desktop icon, any stored taskbar button, or any non-minimized
window's frame, which would consume the click first — the dialog closes
and exactly the corresponding transition occurs: Shutdown terminates the
process; Restart empties the z-order and spawns one default 540×420
Notes window; Sleep sets `minimized` on every window and enters the
Sleeping state; Cancel changes nothing else (except that an open start
menu also closes, in every branch). -/
theorem c7_power_dialog (d : Desktop) (p : Pos) (now : ℚ)
    (hs : d.sleeping = false) (hpo : d.power_open = true)
    (hic : ∀ ico ∈ d.icons, ico.rect.collidepoint p = false)
    (htb : ∀ bz ∈ d.task_buttons, bz.1.collidepoint p = false)
    (hwin : ∀ w ∈ d.windows, w.minimized = true ∨ w.rect.collidepoint p = false) :
    ((powerActionRect 0).collidepoint p = true →
        d.handle_event (.mouseDown 1 p) p now = none)
  ∧ ((powerActionRect 1).collidepoint p = true →
        d.handle_event (.mouseDown 1 p) p now
          = some { d with
              start_open := false, power_open := false,
              windows := [Window.new "Notes" ⟨180, 120, 540, 420⟩ d.seq],
              seq := d.seq + 1 })
  ∧ ((powerActionRect 2).collidepoint p = true →
        d.handle_event (.mouseDown 1 p) p now
          = some { d with
              start_open := false, power_open := false,
              windows := d.windows.map (fun w => { w with minimized := true }),
              sleeping := true })
  ∧ ((powerActionRect 3).collidepoint p = true →
        d.handle_event (.mouseDown 1 p) p now
          = some { d with start_open := false, power_open := false }) := by
  refine ⟨fun hpi => ?_, fun hpi => ?_, fun hpi => ?_, fun hpi => ?_⟩
  · have hbp := (Rect.collidepoint_iff _ _).mp hpi
    simp only [powerActionRect, POWER_RECT, W, H] at hbp
    norm_num at hbp
    have hft := mdown_fall_through d p now (by omega) (by omega) (by omega) hic htb hwin
    simp [Desktop.handle_event, hs, hft, powerStep, hpo, POWER_ACTIONS, List.find?, hpi]
  · have hbp := (Rect.collidepoint_iff _ _).mp hpi
    simp only [powerActionRect, POWER_RECT, W, H] at hbp
    norm_num at hbp
    have hft := mdown_fall_through d p now (by omega) (by omega) (by omega) hic htb hwin
    have h0 : (powerActionRect 0).collidepoint p = false :=
      collidepoint_false_of _ _ (by simp [powerActionRect, POWER_RECT, W, H]; omega)
    simp [Desktop.handle_event, hs, hft, powerStep, hpo, POWER_ACTIONS, List.find?,
      hpi, h0]
    rw [Desktop.spawn_window_eq _ _ _ (by decide)]
    simp [Window.new, MIN_W, MIN_H,
      (show max (220 : Int) 540 = 540 by omega), (show max (140 : Int) 420 = 420 by omega)]
  · have hbp := (Rect.collidepoint_iff _ _).mp hpi
    simp only [powerActionRect, POWER_RECT, W, H] at hbp
    norm_num at hbp
    have hft := mdown_fall_through d p now (by omega) (by omega) (by omega) hic htb hwin
    have h0 : (powerActionRect 0).collidepoint p = false :=
      collidepoint_false_of _ _ (by simp [powerActionRect, POWER_RECT, W, H]; omega)
    have h1 : (powerActionRect 1).collidepoint p = false :=
      collidepoint_false_of _ _ (by simp [powerActionRect, POWER_RECT, W, H]; omega)
    simp [Desktop.handle_event, hs, hft, powerStep, hpo, POWER_ACTIONS, List.find?,
      hpi, h0, h1]
  · have hbp := (Rect.collidepoint_iff _ _).mp hpi
    simp only [powerActionRect, POWER_RECT, W, H] at hbp
    norm_num at hbp
    have hft := mdown_fall_through d p now (by omega) (by omega) (by omega) hic htb hwin
    have h0 : (powerActionRect 0).collidepoint p = false :=
      collidepoint_false_of _ _ (by simp [powerActionRect, POWER_RECT, W, H]; omega)
    have h1 : (powerActionRect 1).collidepoint p = false :=
      collidepoint_false_of _ _ (by simp [powerActionRect, POWER_RECT, W, H]; omega)
    have h2 : (powerActionRect 2).collidepoint p = false :=
      collidepoint_false_of _ _ (by simp [powerActionRect, POWER_RECT, W, H]; omega)
    simp [Desktop.handle_event, hs, hft, powerStep, hpo, POWER_ACTIONS, List.find?,
      hpi, h0, h1, h2]

/-- Witness for C7 (amended): clicking Cancel on the opened dialog of the
initial desktop closes the dialog and changes nothing else. -/
theorem c7_power_dialog_witness :
    ({ initDesktop with power_open := true } : Desktop).handle_event
        (.mouseDown 1 (800, 350)) (800, 350) 0
      = some { ({ initDesktop with power_open := true } : Desktop) with
          start_open := false, power_open := false } := by
  have h := c7_power_dialog { initDesktop with power_open := true } (800, 350) 0
    (by decide) (by decide) (by decide) (by decide) (by decide)
  exact h.2.2.2 (by decide)

/-- Witness for C6 (amended) at a concrete sleeping desktop. -/
theorem c6_sleep_witness :
    tickEvent c6demoD (.mouseMotion (400, 400)) (400, 400) 9 = some c6demoD
  ∧ tickEvent c6demoD (.mouseUp 1 (400, 400)) (400, 400) 9 = some c6demoD
  ∧ tickEvent c6demoD (.keyUp 27) (400, 400) 9 = some c6demoD
  ∧ c6demoD.handle_event (.mouseDown 1 (400, 400)) (400, 400) 9
      = some { c6demoD with sleeping := false }
  ∧ c6demoD.handle_event (.keyDown 27 false) (400, 400) 9
      = some { c6demoD with sleeping := false } :=
  c6_sleep c6demoD (400, 400) 9 1 27 false (by decide) (by decide) (by decide)

/-! ## Claim C1: the z-order invariant -/

/-- One window-management operation preserves the z-order invariant. -/
theorem c1_step (d : Desktop) (s : SpecSt) (op : WMOp) (d' : Desktop)
    (h : C1Inv d s) (hstep : applyOp d op = some d') :
    C1Inv d' (specStep s op) := by
  obtain ⟨h1, h2, h3, h4, h5⟩ := h
  cases op with
  | spawn name size =>
      by_cases hc : APP_MAP.contains name = true
      · rw [show applyOp d (.spawn name size) = d.spawn_window name size from rfl,
          Desktop.spawn_window_eq d name size hc, Option.some_inj] at hstep
        subst hstep
        have hnotin : s.next ∉ s.opened := fun hmem => lt_irrefl _ (h3 _ hmem)
        refine ⟨?_, ?_, ?_, ?_, ?_⟩
        · simp [specStep, List.map_append, h1, Window.new, h2]
        · simp [specStep, h2]
        · intro a ha
          simp only [specStep] at ha ⊢
          rcases List.mem_append.mp ha with ha | ha
          · exact lt_trans (h3 a ha) (lt_add_one _)
          · simp at ha
            subst ha
            exact lt_add_one _
        · simpa [specStep] using nodup_append_singleton h4 hnotin
        · intro a ha hmem
          simp only [specStep, Option.some_inj] at ha
          subst ha
          simp [specStep, List.getLast?_concat]
      · have hmem : name ∉ APP_MAP := by
          intro hm
          exact hc (by simp [List.contains, List.elem_iff, hm])
        simp [applyOp, Desktop.spawn_window, hmem] at hstep
  | focus z =>
      cases hlast : d.windows.getLast? with
      | none =>
          have hfoc : applyOp d (.focus z) = some d := by
            simp [applyOp, Desktop.focus, hlast]
          rw [hfoc, Option.some_inj] at hstep
          subst hstep
          have hnil : d.windows = [] := eq_nil_of_getLast?_eq_none hlast
          have hop : s.opened = [] := by rw [← h1, hnil]; rfl
          have hcz : ¬s.opened.contains z = true := by simp [hop]
          refine ⟨?_, h2, ?_, ?_, ?_⟩
          · simp only [specStep]
            rw [if_neg hcz]
            exact h1
          · intro a ha
            simp only [specStep] at ha
            rw [if_neg hcz] at ha
            exact h3 a ha
          · simp only [specStep]
            rw [if_neg hcz]
            exact h4
          · intro a ha hmem
            simp only [specStep] at hmem
            rw [if_neg hcz, hop] at hmem
            simp at hmem
      | some lastw =>
          have hlastz : s.opened.getLast? = some lastw.z := by
            rw [← h1, List.getLast?_map, hlast]
            rfl
          by_cases hlz : lastw.z = z
          · have hfoc : applyOp d (.focus z) = some d := by
              simp [applyOp, Desktop.focus, hlast, hlz]
            rw [hfoc, Option.some_inj] at hstep
            subst hstep
            obtain ⟨t, ht⟩ := getLast?_eq_some_append (hlz ▸ hlastz)
            have hznott : z ∉ t := by
              have := (List.nodup_append.mp (ht ▸ h4)).2.2
              intro hzm
              exact this hzm (List.mem_singleton.mpr rfl)
            have hopeq : removeFirst (fun a => a == z) s.opened ++ [z] = s.opened := by
              rw [ht, removeFirst_append_left _ _ _
                (fun a ha => beq_eq_false_iff_ne.mpr
                  (fun he => hznott (by rw [← he]; exact ha)))]
              simp [removeFirst]
            have hcz : s.opened.contains z = true :=
              contains_of_mem (by rw [ht]; exact List.mem_append.mpr (Or.inr (by simp)))
            refine ⟨?_, h2, ?_, ?_, ?_⟩
            · simp only [specStep]
              rw [if_pos hcz, hopeq]
              exact h1
            · intro a ha
              simp only [specStep] at ha
              rw [if_pos hcz, hopeq] at ha
              exact h3 a ha
            · simp only [specStep]
              rw [if_pos hcz, hopeq]
              exact h4
            · intro a ha _hmem
              simp only [specStep, Option.some_inj] at ha
              subst ha
              simp only [specStep]
              rw [if_pos hcz, hopeq, ← hlz]
              exact hlastz
          · cases hfind : d.windows.find? (fun w => w.z == z) with
            | none =>
                have hfoc : applyOp d (.focus z) = none := by
                  simp [applyOp, Desktop.focus, hlast, hlz, hfind]
                rw [hfoc] at hstep
                exact Option.noConfusion hstep
            | some w =>
                have hfoc : applyOp d (.focus z)
                    = some { d with
                        windows := removeFirst (fun w => w.z == z) d.windows ++ [w] } := by
                  simp [applyOp, Desktop.focus, hlast, hlz, hfind]
                rw [hfoc, Option.some_inj] at hstep
                subst hstep
                have hwz : w.z = z := by simpa using List.find?_some hfind
                have hwmem : w ∈ d.windows := List.mem_of_find?_eq_some hfind
                have hzmem : z ∈ s.opened := by
                  rw [← h1, ← hwz]
                  exact List.mem_map_of_mem _ hwmem
                have hcz : s.opened.contains z = true := contains_of_mem hzmem
                refine ⟨?_, h2, ?_, ?_, ?_⟩
                · simp only [specStep, List.map_append, List.map_cons, List.map_nil, hwz]
                  rw [if_pos hcz, ← h1, map_z_removeFirst]
                · intro a ha
                  simp only [specStep] at ha
                  rw [if_pos hcz] at ha
                  rcases List.mem_append.mp ha with ha | ha
                  · exact h3 a (mem_of_mem_removeFirst ha)
                  · simp at ha
                    subst ha
                    exact h3 a hzmem
                · simp only [specStep]
                  rw [if_pos hcz]
                  exact nodup_append_singleton (nodup_removeFirst _ h4)
                    (not_mem_removeFirst_self z h4)
                · intro a ha _hmem
                  simp only [specStep, Option.some_inj] at ha
                  subst ha
                  simp only [specStep]
                  rw [if_pos hcz]
                  exact List.getLast?_concat _
  | close z =>
      simp only [applyOp, Option.some_inj] at hstep
      subst hstep
      by_cases hany : d.windows.any (fun w => w.z == z) = true
      · have hclose : (d.close z).windows = removeFirst (fun w => w.z == z) d.windows := by
          simp [Desktop.close, hany]
        have hseq : (d.close z).seq = d.seq := by simp [Desktop.close, hany]
        refine ⟨?_, ?_, ?_, ?_, ?_⟩
        · rw [hclose, map_z_removeFirst, h1]
          rfl
        · rw [hseq]
          exact h2
        · intro a ha
          simp only [specStep] at ha
          exact h3 a (mem_of_mem_removeFirst ha)
        · exact nodup_removeFirst _ h4
        · intro a ha hmem
          simp only [specStep] at ha hmem ⊢
          have hamem : a ∈ s.opened := mem_of_mem_removeFirst hmem
          have hane : a ≠ z := by
            intro he
            exact not_mem_removeFirst_self z h4 (he ▸ hmem)
          exact getLast?_removeFirst _ (h5 a ha hamem) (beq_eq_false_iff_ne.mpr hane)
      · have hany' : d.windows.any (fun w => w.z == z) = false := by simpa using hany
        have hznot : z ∉ s.opened := by
          rw [← h1]
          intro hzm
          rcases List.mem_map.mp hzm with ⟨w, hw, hwz⟩
          have := (List.any_eq_false.mp hany') w hw
          simp [hwz] at this
        have hopeq : removeFirst (fun a => a == z) s.opened = s.opened :=
          removeFirst_eq_self _ (fun a ha => beq_eq_false_iff_ne.mpr (fun he => hznot (he ▸ ha)))
        have hclose : d.close z = d := by simp [Desktop.close, hany']
        rw [hclose]
        refine ⟨?_, h2, ?_, ?_, ?_⟩
        · simp [specStep, hopeq, h1]
        · intro a ha
          simp only [specStep, hopeq] at ha
          exact h3 a ha
        · simpa [specStep, hopeq] using h4
        · intro a ha hmem
          simp only [specStep, hopeq] at ha hmem ⊢
          exact h5 a ha hmem

/-- Running a sequence of window-management operations preserves the
z-order invariant. -/
theorem c1_run (ops : List WMOp) (d : Desktop) (s : SpecSt) (d' : Desktop)
    (h : C1Inv d s) (hrun : runOps d ops = some d') :
    C1Inv d' (specRun s ops) := by
  induction ops generalizing d s with
  | nil =>
      simp only [runOps, Option.some_inj] at hrun
      subst hrun
      exact h
  | cons op rest ih =>
      simp only [runOps] at hrun
      cases hstep : applyOp d op with
      | none => rw [hstep] at hrun; exact absurd hrun (by simp)
      | some d1 =>
          rw [hstep] at hrun
          exact ih d1 (specStep s op) (c1_step d s op d1 h hstep) hrun

/-- The initial desktop satisfies the z-order invariant. -/
theorem c1_init : C1Inv initDesktop initSpec := by
  refine ⟨by decide, by decide, by decide, by decide, ?_⟩
  intro a ha hmem
  have haz : a = 0 := by
    have := Option.some_inj.mp ha
    omega
  subst haz
  decide

/-- C1: after any sequence of `focus`, `spawn_window` and `close` calls
(that does not raise) starting from the initial desktop, the z-order list
`Desktop.windows` contains exactly the currently-open windows, each
exactly once, and the most recently focused window — whenever it is still
open — is the last element.  (If the most recently focused window has
since been closed, it cannot occupy any position, so the last-element
clause is read under openness.) -/
theorem c1_zorder (ops : List WMOp) (d : Desktop)
    (h : runOps initDesktop ops = some d) :
    (d.windows.map (fun w => w.z)).Nodup
  ∧ (d.windows.map (fun w => w.z)).toFinset = (openIdsAfter ops).toFinset
  ∧ (lfOpen ops = true →
      (d.windows.map (fun w => w.z)).getLast? = lastFocusedAfter ops) := by
  obtain ⟨h1, _h2, _h3, h4, h5⟩ := c1_run ops initDesktop initSpec d c1_init h
  refine ⟨?_, ?_, ?_⟩
  · rw [h1]
    exact h4
  · rw [h1]
    rfl
  · intro hlf
    unfold lfOpen at hlf
    cases hlfv : lastFocusedAfter ops with
    | none => rw [hlfv] at hlf; simp at hlf
    | some a =>
        rw [hlfv] at hlf
        have hmem : a ∈ (specRun initSpec ops).opened := by
          have := hlf
          simpa [openIdsAfter, List.contains, List.elem_iff] using this
        rw [h1]
        exact h5 a hlfv hmem

/-- Witness for C1 at the concrete operation sequence `c1demo`
(spawn Sketch, spawn Snake, focus 1, close 2, focus 0). -/
theorem c1_zorder_witness :
    (c1demoD.windows.map (fun w => w.z)).Nodup
  ∧ (c1demoD.windows.map (fun w => w.z)).toFinset = (openIdsAfter c1demo).toFinset
  ∧ (lfOpen c1demo = true →
      (c1demoD.windows.map (fun w => w.z)).getLast? = lastFocusedAfter c1demo) :=
  c1_zorder c1demo c1demoD (by decide)

end XLOS
